import Mathlib

/-!
Verification development for the raw-USB subsystem of the `usb` Go library
(`raw_enabled.go`).  The definitions below are a shallow embedding of that
file: the libusb descriptor tree is modelled as first-order data, the host
USB stack (libusb) is modelled as an explicit oracle parameter, and each Go
function is translated statement by statement.  Machine integers in the
source are `uint8`/`uint16`/C ints whose values are already bounded by their
C struct types, so every Go integer conversion appearing in the source
(`uint16(desc.idVendor)`, `uint8(...port_number...)`, ...) is the identity
and the fields are modelled as plain `Nat` (errno codes as `Int`).
-/

namespace Usb

/-- `LIBUSB_ENDPOINT_OUT` from `libusb.h` (enum `libusb_endpoint_direction`):
the OUT direction value is `0x00`. -/
def LIBUSB_ENDPOINT_OUT : Nat := 0x00

/-- `LIBUSB_ENDPOINT_IN` from `libusb.h`: the IN direction bit, `0x80`. -/
def LIBUSB_ENDPOINT_IN : Nat := 0x80

/-- `LIBUSB_TRANSFER_TYPE_INTERRUPT` from `libusb.h`
(enum `libusb_transfer_type`): value `3`. -/
def LIBUSB_TRANSFER_TYPE_INTERRUPT : Nat := 3

/-- `LIBUSB_CLASS_HID` from `libusb.h` (enum `libusb_class_code`): value `3`. -/
def LIBUSB_CLASS_HID : Nat := 3

/-- `struct libusb_endpoint_descriptor`: the two fields read by
`enumerateRaw`. -/
structure EndpointDescriptor where
  bEndpointAddress : Nat
  bmAttributes : Nat
  deriving DecidableEq

/-- `struct libusb_interface_descriptor` (one alternate setting): the
endpoint list (`endpoint` array of length `bNumEndpoints`). -/
structure AltSetting where
  endpoints : List EndpointDescriptor
  deriving DecidableEq

/-- `struct libusb_interface`: the `altsetting` array of length
`num_altsetting`. -/
structure USBInterface where
  altsettings : List AltSetting
  deriving DecidableEq

/-- `struct libusb_config_descriptor`: the `interface` array of length
`bNumInterfaces`. -/
structure ConfigDescriptor where
  interfaces : List USBInterface
  deriving DecidableEq

/-- `struct libusb_device_descriptor`: the fields read by `enumerateRaw`.
All are `uint8_t`/`uint16_t` in C, modelled as `Nat`. -/
structure DeviceDescriptor where
  idVendor : Nat
  idProduct : Nat
  bDeviceClass : Nat
  bNumConfigurations : Nat
  deriving DecidableEq

/-- One attached `libusb_device` together with the host-stack responses for
it: `deviceDescriptor = none` models `libusb_get_device_descriptor` failing,
and `configDescriptors[i] = none` (or `i` out of range) models
`libusb_get_config_descriptor(dev, i, ...)` failing.  `portNumber` is the
value of `libusb_get_port_number` (a `uint8_t`). -/
structure RawUSBDevice where
  deviceDescriptor : Option DeviceDescriptor
  configDescriptors : List (Option ConfigDescriptor)
  portNumber : Nat
  deriving DecidableEq

/-- `libusb_get_config_descriptor(dev, cfgnum, &cfg)` as seen by the Go
code: `some cfg` on success, `none` on error. -/
def getConfigDescriptor (dev : RawUSBDevice) (cfgnum : Nat) : Option ConfigDescriptor :=
  dev.configDescriptors.getD cfgnum none

/-- One iteration of the endpoint-classification `switch` in
`enumerateRaw` (`raw_enabled.go`), acting on the `(reader, writer)`
accumulator pair.  Source:

    case end.bEndpointAddress&LIBUSB_ENDPOINT_OUT == LIBUSB_ENDPOINT_OUT
           && end.bmAttributes == LIBUSB_TRANSFER_TYPE_INTERRUPT: writer = &addr
    case end.bEndpointAddress&LIBUSB_ENDPOINT_IN == LIBUSB_ENDPOINT_IN
           && end.bmAttributes == LIBUSB_TRANSFER_TYPE_INTERRUPT: reader = &addr

A Go `switch` takes the first true case only. -/
def classifyStep (acc : Option Nat × Option Nat) (e : EndpointDescriptor) :
    Option Nat × Option Nat :=
  if e.bEndpointAddress &&& LIBUSB_ENDPOINT_OUT = LIBUSB_ENDPOINT_OUT ∧
      e.bmAttributes = LIBUSB_TRANSFER_TYPE_INTERRUPT then
    (acc.1, some e.bEndpointAddress)
  else if e.bEndpointAddress &&& LIBUSB_ENDPOINT_IN = LIBUSB_ENDPOINT_IN ∧
      e.bmAttributes = LIBUSB_TRANSFER_TYPE_INTERRUPT then
    (some e.bEndpointAddress, acc.2)
  else acc

/-- The endpoint loop of `enumerateRaw`: fold the `switch` over the
alternate setting's endpoints, starting from `reader = nil, writer = nil`.
Returns the final `(reader, writer)` pair. -/
def classifyEndpoints (ends : List EndpointDescriptor) : Option Nat × Option Nat :=
  ends.foldl classifyStep (none, none)

/-- The match test of `enumerateRaw`: `reader != nil && writer != nil`. -/
def altMatches (alt : AltSetting) : Bool :=
  (classifyEndpoints alt.endpoints).1.isSome && (classifyEndpoints alt.endpoints).2.isSome

/-- The public enumeration record (`DeviceInfo` in `usb.go`, with exactly
the fields assigned by `enumerateRaw`).  `rawDevice` is the
`*C.libusb_device` back-reference, modelled as the device's index in the
enumerated list; `rawReader`/`rawWriter` are the `*uint8` endpoint-address
pointers, modelled as optional values. -/
structure DeviceInfo where
  Path : String
  VendorID : Nat
  ProductID : Nat
  Interface : Nat
  rawDevice : Nat
  rawReader : Option Nat
  rawWriter : Option Nat
  deriving DecidableEq

/-- Go's `%x` verb on an unsigned integer: lowercase hex, no padding. -/
def hexStr (n : Nat) : String := String.mk (Nat.toDigits 16 n)

/-- The `DeviceInfo` literal appended by `enumerateRaw` on a match:

    Path:      fmt.Sprintf("%x:%x:%d", vendorID, uint16(desc.idProduct),
                           uint8(libusb_get_port_number(dev))),
    VendorID:  uint16(desc.idVendor),
    ProductID: uint16(desc.idProduct),
    Interface: ifacenum,
    rawDevice: dev, rawReader: reader, rawWriter: writer

Note the first `Sprintf` argument is the `vendorID` filter parameter, not
`desc.idVendor`. -/
def mkDeviceInfo (vendorID devnum : Nat) (dev : RawUSBDevice) (desc : DeviceDescriptor)
    (ifacenum reader writer : Nat) : DeviceInfo :=
  { Path := hexStr vendorID ++ ":" ++ hexStr desc.idProduct ++ ":" ++ Nat.repr dev.portNumber
    VendorID := desc.idVendor
    ProductID := desc.idProduct
    Interface := ifacenum
    rawDevice := devnum
    rawReader := some reader
    rawWriter := some writer }

/-- The typed enumeration errors of `enumerateRaw`:
`fmt.Errorf("failed to get device %d descriptor: %v", devnum, err)` and
`fmt.Errorf("failed to get device %d config %d: %v", devnum, cfgnum, err)`. -/
inductive EnumError where
  | descriptor (devnum : Nat)
  | config (devnum cfgnum : Nat)
  deriving DecidableEq

/-- Innermost body of the alternate-setting loop of `enumerateRaw`:
classify the endpoints and, if both a reader and a writer were found,
produce the `DeviceInfo` entry. -/
def altInfos (vendorID devnum : Nat) (dev : RawUSBDevice) (desc : DeviceDescriptor)
    (ifacenum : Nat) (alt : AltSetting) : List DeviceInfo :=
  match classifyEndpoints alt.endpoints with
  | (some reader, some writer) => [mkDeviceInfo vendorID devnum dev desc ifacenum reader writer]
  | _ => []

/-- Interface loop body of `enumerateRaw`.  The source's
`if iface.num_altsetting == 0 { continue }` skips an interface whose
alternate-setting list is empty, which is the same as iterating the empty
list. -/
def ifaceInfos (vendorID devnum : Nat) (dev : RawUSBDevice) (desc : DeviceDescriptor)
    (ifacenum : Nat) (iface : USBInterface) : List DeviceInfo :=
  (iface.altsettings.map (altInfos vendorID devnum dev desc ifacenum)).flatten

/-- Config loop body of `enumerateRaw`: iterate the interfaces with their
indices (`for ifacenum, iface := range ifaces`). -/
def configInfos (vendorID devnum : Nat) (dev : RawUSBDevice) (desc : DeviceDescriptor)
    (cfg : ConfigDescriptor) : List DeviceInfo :=
  (cfg.interfaces.enum.map (fun p => ifaceInfos vendorID devnum dev desc p.1 p.2)).flatten

/-- The configuration loop of `enumerateRaw`:
`for cfgnum := 0; cfgnum < int(desc.bNumConfigurations); cfgnum++`,
fetching each config descriptor and aborting the whole enumeration on a
fetch failure.  `fuel` is the number of configurations still to visit, so
the initial call is `enumConfigs ... 0 desc.bNumConfigurations`. -/
def enumConfigs (vendorID devnum : Nat) (dev : RawUSBDevice) (desc : DeviceDescriptor) :
    Nat → Nat → Except EnumError (List DeviceInfo)
  | _, 0 => .ok []
  | cfgnum, fuel + 1 =>
    match getConfigDescriptor dev cfgnum with
    | none => .error (.config devnum cfgnum)
    | some cfg =>
      match enumConfigs vendorID devnum dev desc (cfgnum + 1) fuel with
      | .error e => .error e
      | .ok rest => .ok (configInfos vendorID devnum dev desc cfg ++ rest)

/-- The device loop of `enumerateRaw` (`for devnum, dev := range devices`):
fetch the device descriptor (aborting everything on failure), apply the
vendor/product filter (`vendorID > 0 && uint16(desc.idVendor) != vendorID`
etc., 0 acting as wildcard), apply the HID class skip, then walk the
configurations.  Results of successive devices are accumulated in order. -/
def enumLoop (vendorID productID : Nat) (skipHid : Bool) :
    List RawUSBDevice → Nat → Except EnumError (List DeviceInfo)
  | [], _ => .ok []
  | dev :: rest, devnum =>
    match dev.deviceDescriptor with
    | none => .error (.descriptor devnum)
    | some desc =>
      if (0 < vendorID ∧ desc.idVendor ≠ vendorID) ∨
          (0 < productID ∧ desc.idProduct ≠ productID) then
        enumLoop vendorID productID skipHid rest (devnum + 1)
      else if skipHid = true ∧ DeviceDescriptor.bDeviceClass desc = LIBUSB_CLASS_HID then
        enumLoop vendorID productID skipHid rest (devnum + 1)
      else
        match enumConfigs vendorID devnum dev desc 0 desc.bNumConfigurations with
        | .error e => .error e
        | .ok infos =>
          match enumLoop vendorID productID skipHid rest (devnum + 1) with
          | .error e => .error e
          | .ok more => .ok (infos ++ more)

/-- `enumerateRaw(vendorID, productID, skipHid)` given the attached device
list (host-stack session creation and `libusb_get_device_list` are taken as
succeeded; their failure paths return before any device is examined).
Mirrors the Go pair return: `(nil, err)` on failure — partial results
discarded — and `(infos, nil)` on success. -/
def enumerateRaw (vendorID productID : Nat) (skipHid : Bool)
    (devices : List RawUSBDevice) : Option (List DeviceInfo) × Option EnumError :=
  match enumLoop vendorID productID skipHid devices 0 with
  | .error e => (none, some e)
  | .ok infos => (some infos, none)

/-- Modelled from the spec: the error translator `fromRawErrno`
(spec sections 4.1 and 7) lives outside `raw_enabled.go`; it maps a raw
libusb return code to a typed error, classifying without recovering.
libusb reports success as `0` and failures as negative codes, so the
translation yields no error exactly on code `0`. -/
inductive RawErr where
  | fromErrno (code : Int)
  deriving DecidableEq

/-- Modelled from the spec: `fromRawErrno` returns `nil` on the success
code `0` and a typed error wrapping any other code. -/
def fromRawErrno (code : Int) : Option RawErr :=
  if code = 0 then none else some (.fromErrno code)

/-- A `libusb_interrupt_transfer` invocation as issued by `Write`/`Read`:
the device handle passed (with `none` standing for the nil handle a closed
`RawDevice` holds), the endpoint address, and the buffer length.  The data
pointer is `&b[0]`; only the length is semantically relevant. -/
structure TransferReq where
  handle : Option Nat
  endpoint : Nat
  length : Nat
  deriving DecidableEq

/-- The host stack's answer to an interrupt transfer: the libusb return
code and the value stored through the `transferred` out-parameter. -/
structure TransferResp where
  errno : Int
  transferred : Nat
  deriving DecidableEq

/-- Result value of a Go `Read`/`Write` call: either a runtime panic
(nil-pointer dereference or out-of-range index while evaluating the
arguments of the cgo call) or a normal `return n, err`. -/
inductive XferOutcome where
  | panicked
  | ret (n : Nat) (err : Option RawErr)
  deriving DecidableEq

/-- A `Read`/`Write` call's outcome together with the list of
`libusb_interrupt_transfer` invocations it performed (empty when the call
panicked before reaching the host stack). -/
structure XferResult where
  outcome : XferOutcome
  calls : List TransferReq
  deriving DecidableEq

/-- `RawDevice` (`raw_enabled.go`): embeds the `DeviceInfo` and owns the
`*libusb_device_handle`, which `Close` sets to nil (`none`).  The
`sync.Mutex` field is modelled separately by the interleaving semantics
below. -/
structure RawDevice where
  info : DeviceInfo
  handle : Option Nat
  deriving DecidableEq

/-- Result of `RawDevice.Close`: the returned error, the device state
after the call, and the handles passed to `libusb_close` during it. -/
structure CloseResult where
  err : Option RawErr
  dev : RawDevice
  released : List Nat
  deriving DecidableEq

/-- `RawDevice.Close` (`raw_enabled.go`): under the lock,
`if dev.handle != nil { libusb_close(dev.handle); dev.handle = nil }` and
`return nil`. -/
def RawDevice.Close (dev : RawDevice) : CloseResult :=
  match dev.handle with
  | some h => ⟨none, { dev with handle := none }, [h]⟩
  | none => ⟨none, dev, []⟩

/-- `RawDevice.Write` (`raw_enabled.go`): under the lock, call
`libusb_interrupt_transfer(dev.handle, *dev.rawWriter, &b[0], len(b), &transferred, 0)`
and `return 0, err` on a translated error, else `return transferred, nil`.
Argument evaluation order in Go: `dev.handle` (nil allowed as a value),
then `*dev.rawWriter` (panics when the pointer is nil), then `&b[0]`
(panics when `b` is empty).  There is no closed-handle or empty-buffer
check in the source. -/
def RawDevice.Write (dev : RawDevice) (b : List Nat) (stack : TransferReq → TransferResp) :
    XferResult :=
  match dev.info.rawWriter with
  | none => ⟨.panicked, []⟩
  | some w =>
    if b.length = 0 then ⟨.panicked, []⟩
    else
      let req : TransferReq := ⟨dev.handle, w, b.length⟩
      match fromRawErrno (stack req).errno with
      | some e => ⟨.ret 0 (some e), [req]⟩
      | none => ⟨.ret (stack req).transferred none, [req]⟩

/-- `RawDevice.Read` (`raw_enabled.go`): identical to `Write` but on the
`rawReader` endpoint. -/
def RawDevice.Read (dev : RawDevice) (b : List Nat) (stack : TransferReq → TransferResp) :
    XferResult :=
  match dev.info.rawReader with
  | none => ⟨.panicked, []⟩
  | some r =>
    if b.length = 0 then ⟨.panicked, []⟩
    else
      let req : TransferReq := ⟨dev.handle, r, b.length⟩
      match fromRawErrno (stack req).errno with
      | some e => ⟨.ret 0 (some e), [req]⟩
      | none => ⟨.ret (stack req).transferred none, [req]⟩

/-! ### Predicates describing enumeration runs (for the fail-fast policy) -/

/-- The two `continue` filters of the device loop, combined: `true` iff the
device with descriptor `desc` survives both the vendor/product filter and
the HID class skip (i.e. its configurations get fetched). -/
def passesFilterB (vendorID productID : Nat) (skipHid : Bool) (desc : DeviceDescriptor) : Bool :=
  if (0 < vendorID ∧ desc.idVendor ≠ vendorID) ∨
      (0 < productID ∧ desc.idProduct ≠ productID) then false
  else if skipHid = true ∧ DeviceDescriptor.bDeviceClass desc = LIBUSB_CLASS_HID then false
  else true

/-- `true` iff the `fuel` config-descriptor fetches starting at index
`start` all succeed on `dev`. -/
def cfgRangeOkB (dev : RawUSBDevice) : Nat → Nat → Bool
  | _, 0 => true
  | start, fuel + 1 =>
    (getConfigDescriptor dev start).isSome && cfgRangeOkB dev (start + 1) fuel

/-- `true` iff every host-stack fetch the enumeration performs on `dev`
succeeds: the device descriptor is obtained, and, when the device passes
the filters, every declared configuration descriptor is obtained too. -/
def deviceFetchOkB (vendorID productID : Nat) (skipHid : Bool) (dev : RawUSBDevice) : Bool :=
  match dev.deviceDescriptor with
  | none => false
  | some desc =>
    if passesFilterB vendorID productID skipHid desc then
      cfgRangeOkB dev 0 desc.bNumConfigurations
    else true

/-- `true` iff no fetch performed during the enumeration run over
`devices` fails. -/
def allFetchesOkB (vendorID productID : Nat) (skipHid : Bool)
    (devices : List RawUSBDevice) : Bool :=
  devices.all (deviceFetchOkB vendorID productID skipHid)

/-- `true` iff the enumeration error `e` names a fetch that really fails
on `devices` (indices taken relative to `base`, the device number of the
first list entry): a `descriptor devnum` error names a device whose
device-descriptor fetch fails, and a `config devnum cfgnum` error names a
filter-passing device with `cfgnum` among its declared configurations
whose config fetch fails. -/
def errIdFromB (vendorID productID : Nat) (skipHid : Bool)
    (devices : List RawUSBDevice) (base : Nat) : EnumError → Bool
  | .descriptor d =>
    decide (base ≤ d) &&
      match devices[d - base]? with
      | some dev => dev.deviceDescriptor.isNone
      | none => false
  | .config d c =>
    decide (base ≤ d) &&
      match devices[d - base]? with
      | some dev =>
        match dev.deviceDescriptor with
        | some desc =>
          passesFilterB vendorID productID skipHid desc &&
            decide (c < desc.bNumConfigurations) && (getConfigDescriptor dev c).isNone
        | none => false
      | none => false

/-- `true` on `Except.ok`. -/
def isOkB {ε α : Type} : Except ε α → Bool
  | .ok _ => true
  | .error _ => false

/-! ### The `dev.lock` mutual-exclusion discipline

`Close`, `Write` and `Read` all begin with `dev.lock.Lock()` and end with
the deferred `dev.lock.Unlock()`; everything they do to `dev.handle`
happens in between.  The interleaving of several goroutines calling these
three methods on one `RawDevice` is modelled as a transition system: each
thread runs one operation, its program counter being `0` (before
`Lock()`), `1` (holding the lock, executing the body that touches
`dev.handle`) or `2` (after `Unlock()`). -/

/-- Which of the three lock-guarded `RawDevice` methods a thread runs. -/
inductive RawOp where
  | read
  | write
  | close
  deriving DecidableEq

/-- Shared state of one `RawDevice`'s lock: the thread currently holding
`dev.lock` (if any), the operation each thread runs, and each thread's
program counter. -/
structure LockState where
  owner : Option Nat
  ops : List RawOp
  pcs : List Nat
  deriving DecidableEq

/-- All threads start before their `dev.lock.Lock()` call, with the lock
free. -/
def initState (ops : List RawOp) : LockState :=
  ⟨none, ops, List.replicate ops.length 0⟩

/-- Interleaving semantics of `sync.Mutex` as used by `Close`, `Write` and
`Read`: `acquire` is `dev.lock.Lock()` (blocks unless the lock is free)
and `release` is the deferred `dev.lock.Unlock()` executed when the body
finishes.  The body — the only place the source touches `dev.handle` — is
the critical section at program counter `1`. -/
inductive LockStep : LockState → LockState → Prop where
  | acquire (t : Nat) (s : LockState) : s.owner = none → s.pcs[t]? = some 0 →
      LockStep s ⟨some t, s.ops, s.pcs.set t 1⟩
  | release (t : Nat) (s : LockState) : s.pcs[t]? = some 1 →
      LockStep s ⟨none, s.ops, s.pcs.set t 2⟩

/-- States reachable from `initState ops` by interleaved lock steps. -/
inductive LockReachable (ops : List RawOp) : LockState → Prop where
  | init : LockReachable ops (initState ops)
  | step {s s' : LockState} : LockReachable ops s → LockStep s s' → LockReachable ops s'

/-! ## Development lemmas: the endpoint classifier never records a reader

Because `LIBUSB_ENDPOINT_OUT = 0x00`, the first `switch` case's direction
test `bEndpointAddress &&& LIBUSB_ENDPOINT_OUT = LIBUSB_ENDPOINT_OUT` holds
for every address, so every interrupt endpoint is taken by the writer case
and the reader case is unreachable. -/

theorem classifyStep_fst (acc : Option Nat × Option Nat) (e : EndpointDescriptor) :
    (classifyStep acc e).1 = acc.1 := by
  unfold classifyStep
  by_cases hA : e.bmAttributes = LIBUSB_TRANSFER_TYPE_INTERRUPT
  · rw [if_pos ⟨Nat.and_zero _, hA⟩]
  · rw [if_neg (fun h => hA h.2), if_neg (fun h => hA h.2)]

theorem classify_foldl_fst (ends : List EndpointDescriptor) :
    ∀ acc : Option Nat × Option Nat, (List.foldl classifyStep acc ends).1 = acc.1 := by
  induction ends with
  | nil => intro acc; rfl
  | cons e rest ih => intro acc; rw [List.foldl_cons, ih, classifyStep_fst]

theorem classifyEndpoints_fst (ends : List EndpointDescriptor) :
    (classifyEndpoints ends).1 = none :=
  classify_foldl_fst ends (none, none)

theorem altInfos_eq_nil (vendorID devnum : Nat) (dev : RawUSBDevice)
    (desc : DeviceDescriptor) (ifacenum : Nat) (alt : AltSetting) :
    altInfos vendorID devnum dev desc ifacenum alt = [] := by
  have h := classifyEndpoints_fst alt.endpoints
  unfold altInfos
  rcases hc : classifyEndpoints alt.endpoints with ⟨r, w⟩
  rw [hc] at h
  simp only at h
  subst h
  cases w <;> rfl

theorem ifaceInfos_eq_nil (vendorID devnum : Nat) (dev : RawUSBDevice)
    (desc : DeviceDescriptor) (ifacenum : Nat) (iface : USBInterface) :
    ifaceInfos vendorID devnum dev desc ifacenum iface = [] := by
  unfold ifaceInfos
  simp [altInfos_eq_nil]

theorem configInfos_eq_nil (vendorID devnum : Nat) (dev : RawUSBDevice)
    (desc : DeviceDescriptor) (cfg : ConfigDescriptor) :
    configInfos vendorID devnum dev desc cfg = [] := by
  unfold configInfos
  simp [ifaceInfos_eq_nil]

theorem enumConfigs_ok_empty (vendorID devnum : Nat) (dev : RawUSBDevice)
    (desc : DeviceDescriptor) :
    ∀ fuel start l, enumConfigs vendorID devnum dev desc start fuel = .ok l → l = [] := by
  intro fuel
  induction fuel with
  | zero =>
    intro start l h
    simp only [enumConfigs] at h
    exact (Except.ok.inj h).symm
  | succ fuel ih =>
    intro start l h
    simp only [enumConfigs] at h
    cases hg : getConfigDescriptor dev start with
    | none => rw [hg] at h; cases h
    | some cfg =>
      rw [hg] at h
      cases hr : enumConfigs vendorID devnum dev desc (start + 1) fuel with
      | error e => rw [hr] at h; cases h
      | ok rest =>
        rw [hr] at h
        have hrest : rest = [] := ih (start + 1) rest hr
        have := (Except.ok.inj h).symm
        rw [this, hrest, configInfos_eq_nil, List.append_nil]

theorem enumLoop_ok_empty (vendorID productID : Nat) (skipHid : Bool) :
    ∀ devs devnum l, enumLoop vendorID productID skipHid devs devnum = .ok l → l = [] := by
  intro devs
  induction devs with
  | nil =>
    intro devnum l h
    simp only [enumLoop] at h
    exact (Except.ok.inj h).symm
  | cons dev rest ih =>
    intro devnum l h
    simp only [enumLoop] at h
    cases hd : dev.deviceDescriptor with
    | none => rw [hd] at h; cases h
    | some desc =>
      rw [hd] at h
      dsimp only at h
      split_ifs at h with h1 h2
      · exact ih (devnum + 1) l h
      · exact ih (devnum + 1) l h
      · cases hc : enumConfigs vendorID devnum dev desc 0 desc.bNumConfigurations with
        | error e => rw [hc] at h; cases h
        | ok infos =>
          rw [hc] at h
          cases hr : enumLoop vendorID productID skipHid rest (devnum + 1) with
          | error e => rw [hr] at h; cases h
          | ok more =>
            rw [hr] at h
            have h1 : infos = [] := enumConfigs_ok_empty vendorID devnum dev desc _ 0 infos hc
            have h2 : more = [] := ih (devnum + 1) more hr
            have := (Except.ok.inj h).symm
            rw [this, h1, h2, List.append_nil]

theorem enumerateRaw_ok_empty (vendorID productID : Nat) (skipHid : Bool)
    (devices : List RawUSBDevice) (l : List DeviceInfo) :
    (enumerateRaw vendorID productID skipHid devices).1 = some l → l = [] := by
  unfold enumerateRaw
  cases he : enumLoop vendorID productID skipHid devices 0 with
  | error e => intro h; cases h
  | ok infos =>
    intro h
    have : infos = l := Option.some.inj h
    rw [← this]
    exact enumLoop_ok_empty vendorID productID skipHid devices 0 infos he

/-- C1: the claim fails on the code.  A device that passes the wildcard
vendor/product filter, is not HID, and offers an alternate setting with an
interrupt-IN endpoint (address `0x81`, attributes `3`) and an
interrupt-OUT endpoint (address `0x01`, attributes `3`) yields NO
`DeviceInfo` at all: `enumerateRaw 0 0 false` over that one device returns
the empty list, because the classifier's first switch case (whose
direction test `addr &&& LIBUSB_ENDPOINT_OUT = LIBUSB_ENDPOINT_OUT` is
vacuous, `LIBUSB_ENDPOINT_OUT` being `0`) captures every interrupt
endpoint as writer and a reader is never recorded. -/
theorem c1_qualifying_device_yields_no_device_info :
    enumerateRaw 0 0 false
      [⟨some ⟨0x1234, 0x5678, 0, 1⟩, [some ⟨[⟨[⟨[⟨0x81, 3⟩, ⟨0x01, 3⟩]⟩]⟩]⟩], 1⟩]
      = (some [], none) := by decide

/-- C2: the claim fails on the code.  An interrupt-IN endpoint
(`0x81`, attributes `3`) is classified as a writer, not a reader, because
the OUT-direction test `addr &&& LIBUSB_ENDPOINT_OUT = LIBUSB_ENDPOINT_OUT`
holds for every address (`LIBUSB_ENDPOINT_OUT = 0`); with endpoints
{IN/interrupt, OUT/interrupt} the final pair is `(reader = none,
writer = some 0x01)` — the last interrupt endpoint wins the writer slot and
no reader is ever recorded — so the alternate setting does NOT match.
(The bulk-only and IN-only alternate settings indeed do not match.) -/
theorem c2_classifier_marks_in_interrupt_as_writer :
    classifyEndpoints [⟨0x81, 3⟩] = (none, some 0x81) ∧
    classifyEndpoints [⟨0x81, 3⟩, ⟨0x01, 3⟩] = (none, some 0x01) ∧
    altMatches ⟨[⟨0x81, 3⟩, ⟨0x01, 3⟩]⟩ = false ∧
    altMatches ⟨[⟨0x81, 2⟩, ⟨0x01, 2⟩]⟩ = false ∧
    altMatches ⟨[⟨0x81, 3⟩]⟩ = false := by decide

/-- C4: `RawDevice.Close` never returns an error and is idempotent — the
first call returns `nil` and passes the handle to `libusb_close` exactly
once (when the device is still open, zero times if it was already closed),
leaves `dev.handle = nil`, and a second `Close` again returns `nil` and
releases nothing. -/
theorem c4_close_errorless_idempotent (dev : RawDevice) :
    (RawDevice.Close dev).err = none ∧
    (RawDevice.Close dev).released.length = (if dev.handle.isSome then 1 else 0) ∧
    (RawDevice.Close dev).dev.handle = none ∧
    (RawDevice.Close (RawDevice.Close dev).dev).err = none ∧
    (RawDevice.Close (RawDevice.Close dev).dev).released = [] := by
  cases dev with
  | mk info handle => cases handle <;> simp [RawDevice.Close]

/-- C3: the claim fails on the code.  On a `RawDevice` whose `Close` has
run (`handle = none`, i.e. nil), a subsequent `Write` or `Read` with a
non-empty buffer still invokes `libusb_interrupt_transfer` — the recorded
call carries the nil handle — and returns whatever the host stack answers
(here success with 0 bytes), never a typed device-closed error: the source
has no closed-handle check between `dev.lock.Lock()` and the transfer. -/
theorem c3_closed_device_transfer_reaches_host_stack :
    RawDevice.Write ⟨⟨"1234:5678:1", 0x1234, 0x5678, 0, 0, some 0x81, some 0x01⟩, none⟩
      [7] (fun _ => ⟨0, 0⟩) = ⟨.ret 0 none, [⟨none, 0x01, 1⟩]⟩ ∧
    RawDevice.Read ⟨⟨"1234:5678:1", 0x1234, 0x5678, 0, 0, some 0x81, some 0x01⟩, none⟩
      [7] (fun _ => ⟨0, 0⟩) = ⟨.ret 0 none, [⟨none, 0x81, 1⟩]⟩ := by decide

/-- C7 counterexample: the claim, as stated, fails on the code.  A `Write`
(or `Read`) with an empty buffer is not rejected with a precondition
error: it panics — the Go bounds check on `&b[0]` fires while the
transfer's arguments are evaluated — so the call crashes (though the host
stack is indeed never reached: the call list is empty). -/
theorem c7_empty_buffer_panics :
    RawDevice.Write ⟨⟨"1234:5678:1", 0x1234, 0x5678, 0, 0, some 0x81, some 0x01⟩, some 5⟩
      [] (fun _ => ⟨0, 0⟩) = ⟨.panicked, []⟩ ∧
    RawDevice.Read ⟨⟨"1234:5678:1", 0x1234, 0x5678, 0, 0, some 0x81, some 0x01⟩, some 5⟩
      [] (fun _ => ⟨0, 0⟩) = ⟨.panicked, []⟩ := by decide

/-- C7 amended: for every device state and host stack, a `Read` or `Write`
with an empty buffer never reaches the host stack (no
`libusb_interrupt_transfer` call is recorded), but instead of returning a
precondition error it panics on the out-of-range `b[0]` (or, if the
endpoint pointer is nil, on that dereference) before the transfer call. -/
theorem c7_empty_buffer_never_reaches_stack (dev : RawDevice)
    (stack : TransferReq → TransferResp) :
    RawDevice.Write dev [] stack = ⟨.panicked, []⟩ ∧
    RawDevice.Read dev [] stack = ⟨.panicked, []⟩ := by
  constructor
  · unfold RawDevice.Write
    cases dev.info.rawWriter <;> simp
  · unfold RawDevice.Read
    cases dev.info.rawReader <;> simp

/-- Shape analysis of `RawDevice.Write`: it either panics, returns an
error with byte count 0, or returns a count with no error. -/
theorem write_outcome_cases (dev : RawDevice) (b : List Nat)
    (stack : TransferReq → TransferResp) :
    (RawDevice.Write dev b stack).outcome = .panicked ∨
    (∃ e, (RawDevice.Write dev b stack).outcome = .ret 0 (some e)) ∨
    (∃ t, (RawDevice.Write dev b stack).outcome = .ret t none) := by
  unfold RawDevice.Write
  cases dev.info.rawWriter with
  | none => exact Or.inl rfl
  | some w =>
    dsimp only
    by_cases hb : b.length = 0
    · rw [if_pos hb]; exact Or.inl rfl
    · rw [if_neg hb]
      cases hfe : fromRawErrno (stack ⟨dev.handle, w, b.length⟩).errno with
      | some e => exact Or.inr (Or.inl ⟨e, rfl⟩)
      | none => exact Or.inr (Or.inr ⟨_, rfl⟩)

/-- Shape analysis of `RawDevice.Read`, as for `Write`. -/
theorem read_outcome_cases (dev : RawDevice) (b : List Nat)
    (stack : TransferReq → TransferResp) :
    (RawDevice.Read dev b stack).outcome = .panicked ∨
    (∃ e, (RawDevice.Read dev b stack).outcome = .ret 0 (some e)) ∨
    (∃ t, (RawDevice.Read dev b stack).outcome = .ret t none) := by
  unfold RawDevice.Read
  cases dev.info.rawReader with
  | none => exact Or.inl rfl
  | some r =>
    dsimp only
    by_cases hb : b.length = 0
    · rw [if_pos hb]; exact Or.inl rfl
    · rw [if_neg hb]
      cases hfe : fromRawErrno (stack ⟨dev.handle, r, b.length⟩).errno with
      | some e => exact Or.inr (Or.inl ⟨e, rfl⟩)
      | none => exact Or.inr (Or.inr ⟨_, rfl⟩)

/-- C6: when the host stack completes the interrupt transfer with code `0`
and `t` bytes transferred — fewer than the (non-empty) buffer's length,
i.e. a short transfer — `Write` and `Read` return success with exactly
that byte count `t` and no error. -/
theorem c6_short_transfer_reported_as_success (dev : RawDevice) (b : List Nat)
    (stack : TransferReq → TransferResp) (w r t : Nat)
    (hw : dev.info.rawWriter = some w) (hr : dev.info.rawReader = some r)
    (hb : b ≠ []) (_ht : t < b.length)
    (hsw : stack ⟨dev.handle, w, b.length⟩ = ⟨0, t⟩)
    (hsr : stack ⟨dev.handle, r, b.length⟩ = ⟨0, t⟩) :
    (RawDevice.Write dev b stack).outcome = .ret t none ∧
    (RawDevice.Read dev b stack).outcome = .ret t none := by
  have hlen : ¬b.length = 0 := fun h => hb (List.length_eq_zero.mp h)
  constructor
  · unfold RawDevice.Write
    rw [hw]
    dsimp only
    rw [if_neg hlen, hsw]
    rfl
  · unfold RawDevice.Read
    rw [hr]
    dsimp only
    rw [if_neg hlen, hsr]
    rfl

/-- C6 witness: a concrete open device, a 3-byte buffer and a host stack
answering `errno = 0, transferred = 1` — a short transfer reported as
success with count 1 on both `Write` and `Read`. -/
theorem c6_short_transfer_reported_as_success_witness :
    (RawDevice.Write ⟨⟨"1234:5678:1", 0x1234, 0x5678, 0, 0, some 0x81, some 0x01⟩, some 5⟩
        [9, 9, 9] (fun _ => ⟨0, 1⟩)).outcome = .ret 1 none ∧
    (RawDevice.Read ⟨⟨"1234:5678:1", 0x1234, 0x5678, 0, 0, some 0x81, some 0x01⟩, some 5⟩
        [9, 9, 9] (fun _ => ⟨0, 1⟩)).outcome = .ret 1 none :=
  c6_short_transfer_reported_as_success
    ⟨⟨"1234:5678:1", 0x1234, 0x5678, 0, 0, some 0x81, some 0x01⟩, some 5⟩
    [9, 9, 9] (fun _ => ⟨0, 1⟩) 0x01 0x81 1 rfl rfl (by decide) (by decide) rfl rfl

/-- C10: whenever `Write` or `Read` returns an error, the returned byte
count is exactly 0 — the error branch of the source is `return 0, err`. -/
theorem c10_error_return_has_zero_count (dev : RawDevice) (b : List Nat)
    (stack : TransferReq → TransferResp) (n m : Nat) (e f : RawErr) :
    ((RawDevice.Write dev b stack).outcome = .ret n (some e) → n = 0) ∧
    ((RawDevice.Read dev b stack).outcome = .ret m (some f) → m = 0) := by
  constructor
  · intro h
    rcases write_outcome_cases dev b stack with hp | ⟨e', he⟩ | ⟨t, hto⟩
    · rw [hp] at h; exact XferOutcome.noConfusion h
    · rw [he] at h
      injection h with h1 h2
      exact h1.symm
    · rw [hto] at h
      injection h with h1 h2
      exact Option.noConfusion h2
  · intro h
    rcases read_outcome_cases dev b stack with hp | ⟨e', he⟩ | ⟨t, hto⟩
    · rw [hp] at h; exact XferOutcome.noConfusion h
    · rw [he] at h
      injection h with h1 h2
      exact h1.symm
    · rw [hto] at h
      injection h with h1 h2
      exact Option.noConfusion h2

/-- C10 witness: a host stack failing with code `-5`; `Write` and `Read`
return count 0 alongside the typed error. -/
theorem c10_error_return_has_zero_count_witness :
    ((RawDevice.Write ⟨⟨"1234:5678:1", 0x1234, 0x5678, 0, 0, some 0x81, some 0x01⟩, some 5⟩
        [1] (fun _ => ⟨-5, 3⟩)).outcome = .ret 0 (some (.fromErrno (-5))) ∧ (0 : Nat) = 0) ∧
    ((RawDevice.Read ⟨⟨"1234:5678:1", 0x1234, 0x5678, 0, 0, some 0x81, some 0x01⟩, some 5⟩
        [1] (fun _ => ⟨-5, 3⟩)).outcome = .ret 0 (some (.fromErrno (-5))) ∧ (0 : Nat) = 0) :=
  ⟨⟨by decide,
    (c10_error_return_has_zero_count
      ⟨⟨"1234:5678:1", 0x1234, 0x5678, 0, 0, some 0x81, some 0x01⟩, some 5⟩
      [1] (fun _ => ⟨-5, 3⟩) 0 0 (.fromErrno (-5)) (.fromErrno (-5))).1 (by decide)⟩,
   ⟨by decide,
    (c10_error_return_has_zero_count
      ⟨⟨"1234:5678:1", 0x1234, 0x5678, 0, 0, some 0x81, some 0x01⟩, some 5⟩
      [1] (fun _ => ⟨-5, 3⟩) 0 0 (.fromErrno (-5)) (.fromErrno (-5))).2 (by decide)⟩⟩

/-- C8: the claim fails at the `DeviceInfo` construction site.  For a
wildcard enumeration (`vendorID = 0`) over a device whose descriptor
carries vendor `0x1234`, product `0x5678`, on port 1, the constructed
`Path` is `"0:5678:1"` — its first component is the `vendorID` filter
argument (`%x` of 0), not the device's own vendor ID (`"1234"`) — while
the `VendorID`/`ProductID` fields do carry the descriptor's values.
(Moreover, since the endpoint classifier never finds a reader, this
construction site is unreachable and `enumerateRaw` never emits any
`DeviceInfo` at all; see the C1/C2 theorems.) -/
theorem c8_path_encodes_filter_argument_not_device_vendor :
    (mkDeviceInfo 0 0 ⟨some ⟨0x1234, 0x5678, 0, 1⟩, [], 1⟩ ⟨0x1234, 0x5678, 0, 1⟩
        0 0x81 0x01).Path = "0:5678:1" ∧
    (mkDeviceInfo 0 0 ⟨some ⟨0x1234, 0x5678, 0, 1⟩, [], 1⟩ ⟨0x1234, 0x5678, 0, 1⟩
        0 0x81 0x01).VendorID = 0x1234 ∧
    (mkDeviceInfo 0 0 ⟨some ⟨0x1234, 0x5678, 0, 1⟩, [], 1⟩ ⟨0x1234, 0x5678, 0, 1⟩
        0 0x81 0x01).ProductID = 0x5678 ∧
    hexStr 0x1234 = "1234" := by decide

/-! ## The fail-fast error policy of enumeration -/

theorem cfg_ok_iff (vendorID devnum : Nat) (dev : RawUSBDevice) (desc : DeviceDescriptor) :
    ∀ fuel start,
      isOkB (enumConfigs vendorID devnum dev desc start fuel) = cfgRangeOkB dev start fuel := by
  intro fuel
  induction fuel with
  | zero => intro start; rfl
  | succ fuel ih =>
    intro start
    simp only [enumConfigs, cfgRangeOkB]
    cases hg : getConfigDescriptor dev start with
    | none => simp [isOkB]
    | some cfg =>
      rw [← ih (start + 1)]
      cases hr : enumConfigs vendorID devnum dev desc (start + 1) fuel with
      | error e => simp [isOkB]
      | ok rest => simp [isOkB]

theorem enumConfigs_error_id (vendorID devnum : Nat) (dev : RawUSBDevice)
    (desc : DeviceDescriptor) :
    ∀ fuel start e, enumConfigs vendorID devnum dev desc start fuel = .error e →
      ∃ c, e = .config devnum c ∧ start ≤ c ∧ c < start + fuel ∧
        getConfigDescriptor dev c = none := by
  intro fuel
  induction fuel with
  | zero => intro start e h; simp only [enumConfigs] at h; cases h
  | succ fuel ih =>
    intro start e h
    simp only [enumConfigs] at h
    cases hg : getConfigDescriptor dev start with
    | none =>
      rw [hg] at h
      dsimp only at h
      injection h with h'
      exact ⟨start, h'.symm, Nat.le_refl start, by omega, hg⟩
    | some cfg =>
      rw [hg] at h
      dsimp only at h
      cases hr : enumConfigs vendorID devnum dev desc (start + 1) fuel with
      | error e' =>
        rw [hr] at h
        dsimp only at h
        injection h with h'
        obtain ⟨c, hc1, hc2, hc3, hc4⟩ := ih (start + 1) e' hr
        exact ⟨c, by rw [← h']; exact hc1, by omega, by omega, hc4⟩
      | ok rest => rw [hr] at h; cases h

theorem enumLoop_ok_iff (vendorID productID : Nat) (skipHid : Bool) :
    ∀ devs devnum,
      isOkB (enumLoop vendorID productID skipHid devs devnum)
        = allFetchesOkB vendorID productID skipHid devs := by
  intro devs
  induction devs with
  | nil => intro devnum; rfl
  | cons dev rest ih =>
    intro devnum
    simp only [enumLoop, allFetchesOkB, List.all_cons]
    cases hd : dev.deviceDescriptor with
    | none => simp [isOkB, deviceFetchOkB, hd]
    | some desc =>
      simp only [deviceFetchOkB, hd]
      by_cases h1 : (0 < vendorID ∧ desc.idVendor ≠ vendorID) ∨
          (0 < productID ∧ desc.idProduct ≠ productID)
      · rw [if_pos h1, ih (devnum + 1)]
        have hp : passesFilterB vendorID productID skipHid desc = false := by
          simp [passesFilterB, h1]
        rw [hp]
        simp [allFetchesOkB]
      · by_cases h2 : skipHid = true ∧ DeviceDescriptor.bDeviceClass desc = LIBUSB_CLASS_HID
        · rw [if_neg h1, if_pos h2, ih (devnum + 1)]
          have hp : passesFilterB vendorID productID skipHid desc = false := by
            simp [passesFilterB, h1, h2]
          rw [hp]
          simp [allFetchesOkB]
        · rw [if_neg h1, if_neg h2]
          have hp : passesFilterB vendorID productID skipHid desc = true := by
            simp [passesFilterB, h1, h2]
          rw [hp]
          simp only [if_pos rfl]
          rw [← cfg_ok_iff vendorID devnum dev desc desc.bNumConfigurations 0]
          cases hc : enumConfigs vendorID devnum dev desc 0 desc.bNumConfigurations with
          | error e => simp [isOkB]
          | ok infos =>
            have ihr := ih (devnum + 1)
            rw [allFetchesOkB] at ihr
            rw [← ihr]
            cases hr : enumLoop vendorID productID skipHid rest (devnum + 1) with
            | error e => simp [isOkB]
            | ok more => simp [isOkB]

theorem errId_cons_lift (vendorID productID : Nat) (skipHid : Bool) (dev : RawUSBDevice)
    (rest : List RawUSBDevice) (base : Nat) (e : EnumError) :
    errIdFromB vendorID productID skipHid rest (base + 1) e = true →
    errIdFromB vendorID productID skipHid (dev :: rest) base e = true := by
  cases e with
  | descriptor d =>
    simp only [errIdFromB, Bool.and_eq_true, decide_eq_true_eq]
    rintro ⟨hle, hm⟩
    have hd : d - base = (d - (base + 1)) + 1 := by omega
    refine ⟨by omega, ?_⟩
    rw [hd, List.getElem?_cons_succ]
    exact hm
  | config d c =>
    simp only [errIdFromB, Bool.and_eq_true, decide_eq_true_eq]
    rintro ⟨hle, hm⟩
    have hd : d - base = (d - (base + 1)) + 1 := by omega
    refine ⟨by omega, ?_⟩
    rw [hd, List.getElem?_cons_succ]
    exact hm

theorem enumLoop_error_id (vendorID productID : Nat) (skipHid : Bool) :
    ∀ devs devnum e, enumLoop vendorID productID skipHid devs devnum = .error e →
      errIdFromB vendorID productID skipHid devs devnum e = true := by
  intro devs
  induction devs with
  | nil => intro devnum e h; cases h
  | cons dev rest ih =>
    intro devnum e h
    simp only [enumLoop] at h
    cases hd : dev.deviceDescriptor with
    | none =>
      rw [hd] at h
      dsimp only at h
      injection h with h'
      rw [← h']
      simp [errIdFromB, Nat.sub_self, hd]
    | some desc =>
      rw [hd] at h
      dsimp only at h
      split_ifs at h with h1 h2
      · exact errId_cons_lift _ _ _ dev rest devnum e (ih (devnum + 1) e h)
      · exact errId_cons_lift _ _ _ dev rest devnum e (ih (devnum + 1) e h)
      · cases hc : enumConfigs vendorID devnum dev desc 0 desc.bNumConfigurations with
        | error e' =>
          rw [hc] at h
          dsimp only at h
          injection h with h'
          subst h'
          obtain ⟨c, hc1, hc2, hc3, hc4⟩ :=
            enumConfigs_error_id vendorID devnum dev desc _ 0 e' hc
          subst hc1
          have hp : passesFilterB vendorID productID skipHid desc = true := by
            simp [passesFilterB, h1, h2]
          simp [errIdFromB, Nat.sub_self, hd, hp, hc4]
          omega
        | ok infos =>
          rw [hc] at h
          dsimp only at h
          cases hr : enumLoop vendorID productID skipHid rest (devnum + 1) with
          | error e' =>
            rw [hr] at h
            dsimp only at h
            injection h with h'
            subst h'
            exact errId_cons_lift _ _ _ dev rest devnum e' (ih (devnum + 1) e' hr)
          | ok more => rw [hr] at h; cases h

/-- C5: the enumeration is fail-fast.  The call succeeds (no error in the
second component of the Go return pair) exactly when every device- and
config-descriptor fetch it performs succeeds; and whenever it returns an
error, the `DeviceInfo` list component is `nil` — every partial result is
discarded — and the error identifies a device index (and, for a config
error, a config index of a filter-passing device) whose fetch really
fails. -/
theorem c5_enumeration_fail_fast (vendorID productID : Nat) (skipHid : Bool)
    (devices : List RawUSBDevice) :
    ((enumerateRaw vendorID productID skipHid devices).2.isNone
        = allFetchesOkB vendorID productID skipHid devices) ∧
    (∀ e, (enumerateRaw vendorID productID skipHid devices).2 = some e →
      (enumerateRaw vendorID productID skipHid devices).1 = none ∧
      errIdFromB vendorID productID skipHid devices 0 e = true) := by
  constructor
  · rw [← enumLoop_ok_iff vendorID productID skipHid devices 0]
    unfold enumerateRaw
    cases h : enumLoop vendorID productID skipHid devices 0 with
    | error e => simp [isOkB]
    | ok l => simp [isOkB]
  · intro e he
    unfold enumerateRaw at he ⊢
    cases h : enumLoop vendorID productID skipHid devices 0 with
    | error e' =>
      rw [h] at he
      dsimp only at he
      injection he with he'
      subst he'
      exact ⟨rfl, enumLoop_error_id vendorID productID skipHid devices 0 e' h⟩
    | ok l => rw [h] at he; cases he

/-- C5 witness: one device whose device-descriptor fetch fails; the run
returns no list and the error `descriptor 0` names that device. -/
theorem c5_enumeration_fail_fast_witness :
    (enumerateRaw 0 0 false [⟨none, [], 0⟩]).2 = some (.descriptor 0) ∧
    ((enumerateRaw 0 0 false [⟨none, [], 0⟩]).1 = none ∧
      errIdFromB 0 0 false [⟨none, [], 0⟩] 0 (.descriptor 0) = true) :=
  ⟨by decide,
   (c5_enumeration_fail_fast 0 0 false [⟨none, [], 0⟩]).2 (.descriptor 0) (by decide)⟩

/-! ## Mutual exclusion of `Read`/`Write`/`Close` on one `RawDevice` -/

/-- The lock invariant: any thread inside the lock-guarded body
(program counter 1) is the thread recorded as holding `dev.lock`. -/
def lockInv (s : LockState) : Prop :=
  ∀ t, s.pcs[t]? = some 1 → s.owner = some t

theorem lockInv_init (ops : List RawOp) : lockInv (initState ops) := by
  intro t h
  have hm : 1 ∈ List.replicate ops.length 0 := List.getElem?_mem h
  exact absurd (List.eq_of_mem_replicate hm) one_ne_zero

theorem lockInv_step {s s' : LockState} (hs : lockInv s) (h : LockStep s s') : lockInv s' := by
  cases h with
  | acquire t s ho hp =>
    intro u hu
    by_cases htu : t = u
    · subst htu; rfl
    · simp only at hu
      rw [List.getElem?_set_ne htu] at hu
      have := hs u hu
      rw [ho] at this
      exact Option.noConfusion this
  | release t s hp =>
    intro u hu
    by_cases htu : t = u
    · subst htu
      simp only at hu
      rw [List.getElem?_set_self'] at hu
      rw [hp] at hu
      simp at hu
    · simp only at hu
      rw [List.getElem?_set_ne htu] at hu
      have h1 := hs u hu
      have h2 := hs t hp
      rw [h2] at h1
      exact absurd (Option.some.inj h1) (fun hh => htu hh)

theorem lockReachable_inv (ops : List RawOp) {s : LockState}
    (h : LockReachable ops s) : lockInv s := by
  induction h with
  | init => exact lockInv_init ops
  | step _ hstep ih => exact lockInv_step ih hstep

/-- C9: in any interleaving of threads each running one of `Read`, `Write`
or `Close` on the same `RawDevice` — all three of which hold `dev.lock`
for their whole handle-touching body — at most one thread is inside its
body at any time.  In particular a `Close` (which releases the handle
inside its body) can never execute concurrently with an in-flight `Read`
or `Write` transfer on the same instance. -/
theorem c9_read_write_close_mutually_exclusive (ops : List RawOp) (s : LockState)
    (hreach : LockReachable ops s) (t1 t2 : Nat)
    (h1 : s.pcs[t1]? = some 1) (h2 : s.pcs[t2]? = some 1) : t1 = t2 := by
  have hi := lockReachable_inv ops hreach
  have e1 := hi t1 h1
  have e2 := hi t2 h2
  rw [e1] at e2
  exact Option.some.inj e2

/-- C9 witness: two threads, a `Close` and a `Read`; after the `Close`
thread acquires the lock the reached state has it (and only it) inside
the critical body. -/
theorem c9_read_write_close_mutually_exclusive_witness :
    (⟨some 0, [RawOp.close, RawOp.read], [1, 0]⟩ : LockState).pcs[0]? = some 1 ∧
    (0 : Nat) = 0 :=
  ⟨rfl,
   c9_read_write_close_mutually_exclusive [RawOp.close, RawOp.read]
     ⟨some 0, [RawOp.close, RawOp.read], [1, 0]⟩
     (LockReachable.step LockReachable.init
       (LockStep.acquire 0 (initState [RawOp.close, RawOp.read]) rfl rfl))
     0 0 rfl rfl⟩

end Usb
